import Mathlib

/- Shallow embedding of src/Spectrometer-Control-App.py: the device
   abstraction (DashOceanOpticsSpectrometer and its two subclasses
   PhysicalSpectrometer and DemoSpectrometer), the control-function
   tables, and the operator-submission callback update_spec_params.
   Machine interaction with the seabreeze driver (an external
   collaborator) is modelled by an explicit environment of oracles;
   each Python statement that can raise becomes an Option/Except value.
   random.random() draws are modelled as a stream of reals in [0, 1)
   indexed by the order in which the draws are consumed. -/

namespace SpectroApp

/-- Python s.strip(c): remove leading and trailing occurrences of the
character c (used by PhysicalSpectrometer.send_control_values, which
applies .strip of the letter b to error messages). -/
def stripChar (c : Char) (s : String) : String :=
  String.mk (((s.toList.dropWhile (fun a => a = c)).reverse.dropWhile (fun a => a = c)).reverse)

/-- The apostrophe character (code 39), as printed by Python repr. -/
def pyQuote : Char := Char.ofNat 39

/-- str(KeyError(cid)): Python renders the missing key between
apostrophes. -/
def keyErrorMsg (cid : String) : String :=
  String.mk (pyQuote :: cid.toList ++ [pyQuote])

/-- The AttributeError message raised when self._spec is None and the
stored expression self._spec.integration_time_micros is evaluated. -/
def noneTypeErrMsg : String :=
  String.mk (pyQuote :: "NoneType".toList ++ [pyQuote]) ++ " object has no attribute " ++
    String.mk (pyQuote :: "integration_time_micros".toList ++ [pyQuote])

/-- State of a PhysicalSpectrometer instance: the fields set by
DashOceanOpticsSpectrometer.__init__ and mutated by assign_spec /
get_spectrum.  The driver handle (self._spec) is an Option over opaque
handle ids; wavelengths and intensities are lists of reals. -/
structure PhysState where
  spec : Option Nat
  specmodel : String
  spectralData : List ℝ × List ℝ
  int_time_min : Int
  int_time_max : Int

/-- The field values established by DashOceanOpticsSpectrometer.__init__
(lines 16-24): no handle, empty model name, empty spectral data,
integration-time bounds 0 and 1. -/
def physInitState : PhysState :=
  { spec := none, specmodel := "", spectralData := ([], []),
    int_time_min := 0, int_time_max := 1 }

/-- Environment of driver oracles: each call into the seabreeze driver
either returns a value (some / Except.ok) or raises (none /
Except.error).  listDevices models list_devices(); openDevice models
the Spectrometer(device) constructor; queryModel, queryLimit0 and
queryLimit1 model the attribute reads in assign_spec; readSpectrum
models spec.spectrum(...); setControl models the bound driver setter
invoked by send_control_values. -/
structure PhysEnv where
  listDevices : Option (List Nat)
  openDevice : Nat → Option Nat
  queryModel : Nat → Option String
  queryLimit0 : Nat → Option Int
  queryLimit1 : Nat → Option Int
  readSpectrum : Nat → Option (List ℝ × List ℝ)
  setControl : Nat → String → Int → Except String Unit

/-- PhysicalSpectrometer.assign_spec (lines 61-73).  Each driver call
may fail; every failure is swallowed (except Exception: pass), leaving
whatever fields were already assigned.  Note the partial updates: the
handle is stored as soon as the constructor succeeds, before the model
name and the limits are queried. -/
def physAssignSpec (e : PhysEnv) (s : PhysState) : PhysState :=
  match e.listDevices with
  | none => s
  | some devs =>
    match devs.head? with
    | none => s
    | some d =>
      match e.openDevice d with
      | none => s
      | some h =>
        let s1 := { s with spec := some h }
        match e.queryModel h with
        | none => s1
        | some m =>
          let s2 := { s1 with specmodel := m }
          match e.queryLimit0 h with
          | none => s2
          | some lo =>
            let s3 := { s2 with int_time_min := lo }
            match e.queryLimit1 h with
            | none => s3
            | some hi => { s3 with int_time_max := hi }

/-- PhysicalSpectrometer.get_spectrum (lines 75-93): if no handle is
bound, retry assign_spec once; then attempt one driver read, caching
the result in _spectralData on success and swallowing any error; the
current _spectralData is returned either way.  Reading through a None
handle raises AttributeError, which the except clause also swallows. -/
def physGetSpectrum (e : PhysEnv) (s : PhysState) : PhysState × (List ℝ × List ℝ) :=
  let s1 := if s.spec.isNone then physAssignSpec e s else s
  match s1.spec with
  | none => (s1, s1.spectralData)
  | some h =>
    match e.readSpectrum h with
    | none => (s1, s1.spectralData)
    | some d => ({ s1 with spectralData := d }, d)

/-- PhysicalSpectrometer._controlFunctions (lines 56-59). -/
def physControlFunctions : List (String × String) :=
  [("integration-time-input", "self._spec.integration_time_micros")]

/-- PhysicalSpectrometer.send_control_values (lines 95-109): for each
command in order, look up the stored expression for the control id
(KeyError on a missing id), evaluate it (AttributeError when _spec is
None) and call the driver setter; record str(value) under succeeded on
success, the stripped error text under failed on any error, and keep
going.  Returns (failed, succeeded). -/
def physSend (e : PhysEnv) (s : PhysState) (cmds : List (String × Int)) :
    List (String × String) × List (String × String) :=
  match cmds with
  | [] => ([], [])
  | (cid, v) :: rest =>
    let r := physSend e s rest
    match List.lookup cid physControlFunctions with
    | none => ((cid, stripChar 'b' (keyErrorMsg cid)) :: r.1, r.2)
    | some _ =>
      match s.spec with
      | none => ((cid, stripChar 'b' noneTypeErrMsg) :: r.1, r.2)
      | some h =>
        match e.setControl h cid v with
        | Except.ok _ => (r.1, (cid, toString v) :: r.2)
        | Except.error msg => ((cid, stripChar 'b' msg) :: r.1, r.2)

/-- PhysicalSpectrometer.model (lines 111-115): re-run assign_spec and
return the (possibly refreshed) model name. -/
def physModel (e : PhysEnv) (s : PhysState) : PhysState × String :=
  let s1 := physAssignSpec e s
  (s1, s1.specmodel)

/-- State of a DemoSpectrometer instance (the simulated variant);
_spec stays None for its whole lifetime so it is omitted. -/
structure DemoState where
  specmodel : String
  spectralData : List ℝ × List ℝ
  int_time_min : Int
  int_time_max : Int
  sample_data_scale : ℝ
  sample_data_add : ℝ

/-- DemoSpectrometer.__init__ (lines 131-145): base init, assign_spec
(which sets the fixed model name), then _sample_data_scale :=
_int_time_min = 0 and _sample_data_add := 0. -/
noncomputable def demoInit : DemoState :=
  { specmodel := "USB2000+", spectralData := ([], []),
    int_time_min := 0, int_time_max := 1,
    sample_data_scale := ((0 : Int) : ℝ), sample_data_add := 0 }

/-- DemoSpectrometer.sample_spectrum (lines 181-184): a Gaussian about
500 nm plus scaled uniform noise, times the current scale, plus ten
times the additive offset.  noiseVal stands for one random.random()
draw. -/
noncomputable def sampleSpectrum (scale add noiseVal x : ℝ) : ℝ :=
  scale * (Real.exp (-(((x - 500) / 5) ^ 2)) + 0.01 * noiseVal) + add * 10

/-- The intensity list comprehension of get_spectrum (lines 152-153):
one sample_spectrum value per wavelength, consuming one noise draw per
element; k is the index of the next draw. -/
noncomputable def intensitiesFrom (scale add : ℝ) (noise : ℕ → ℝ) : ℕ → List ℝ → List ℝ
  | _, [] => []
  | k, x :: xs => sampleSpectrum scale add (noise k) x :: intensitiesFrom scale add noise (k + 1) xs

/-- The i-th sample of numpy.linspace(400, 900, 5000). -/
noncomputable def demoWl (i : ℕ) : ℝ := 400 + 500 * (i : ℝ) / 4999

/-- numpy.linspace(400, 900, 5000) as a list. -/
noncomputable def demoWavelengths : List ℝ := (List.range 5000).map demoWl

/-- DemoSpectrometer.get_spectrum (lines 150-154): overwrite the
wavelength component with the fixed linspace, then recompute the
intensity component from the wavelength component just written, and
return _spectralData. -/
noncomputable def demoGetSpectrum (noise : ℕ → ℝ) (s : DemoState) : DemoState × (List ℝ × List ℝ) :=
  let s1 := { s with spectralData := (demoWavelengths, s.spectralData.2) }
  let s2 := { s1 with spectralData :=
    (s1.spectralData.1,
      intensitiesFrom s1.sample_data_scale s1.sample_data_add noise 0 s1.spectralData.1) }
  (s2, s2.spectralData)

/-- DemoSpectrometer.controlFunctions (lines 140-143). -/
def demoControlFunctions : List (String × String) :=
  [("integration-time-input", "self.integration_time_demo")]

/-- DemoSpectrometer.integration_time_demo (lines 186-187). -/
noncomputable def integration_time_demo (v : Int) (s : DemoState) : DemoState :=
  { s with sample_data_scale := (v : ℝ) }

/-- The eval of a stored control expression on the demo instance: the
only expression stored in controlFunctions resolves to
integration_time_demo. -/
noncomputable def demoEvalCtrl (expr : String) (v : Int) (s : DemoState) : DemoState :=
  if expr = "self.integration_time_demo" then integration_time_demo v s else s

/-- DemoSpectrometer.send_control_values (lines 156-167): for each
command in order, look up the stored expression (KeyError on a missing
id, recorded under failed with str(e)), otherwise call the resolved
setter and record str(value) under succeeded; one entry's failure does
not stop the loop.  Returns (failed, succeeded). -/
noncomputable def demoSend (cmds : List (String × Int)) (s : DemoState) :
    DemoState × (List (String × String) × List (String × String)) :=
  match cmds with
  | [] => (s, ([], []))
  | (cid, v) :: rest =>
    match List.lookup cid demoControlFunctions with
    | some expr =>
      let r := demoSend rest (demoEvalCtrl expr v s)
      (r.1, (r.2.1, (cid, toString v) :: r.2.2))
    | none =>
      let r := demoSend rest s
      (r.1, ((cid, keyErrorMsg cid) :: r.2.1, r.2.2))

/-- DemoSpectrometer.model (lines 169-170): a pure getter. -/
def demoModel (s : DemoState) : DemoState × String :=
  (s, s.specmodel)

/-- The commands dictionary built by update_spec_params (lines
487-488): the registered controls list holds the single integration
time control whose component id is integration-time-input, so the
dictionary pairs that id with the submitted value.  No bounds check is
performed anywhere on this path. -/
def updateSpecParamsCommands (v : Int) : List (String × Int) :=
  [("integration-time-input", v)]

/-- update_spec_params (lines 476-490) against a simulated device:
when the power switch is off the callback returns a help message
(modelled as none); otherwise the commands dictionary is passed to
send_control_values exactly as built. -/
noncomputable def updateSpecParamsDemo (powerOn : Bool) (v : Int) (s : DemoState) :
    Option (DemoState × (List (String × String) × List (String × String))) :=
  if powerOn then some (demoSend (updateSpecParamsCommands v) s) else none

/-- update_spec_params (lines 476-490) against a physical device. -/
def updateSpecParamsPhys (e : PhysEnv) (powerOn : Bool) (v : Int) (s : PhysState) :
    Option (List (String × String) × List (String × String)) :=
  if powerOn then some (physSend e s (updateSpecParamsCommands v)) else none

/-- Atomic actions on the shared DemoSpectrometer state, at the
granularity of the attribute assignments the Python statements
perform: the two statements of get_spectrum (lines 151, 152-153) and
the single assignment of integration_time_demo (line 187) reached by
send_control_values.  The demo variant takes no locks. -/
inductive DemoAct where
  | writeWl : DemoAct
  | writeInts : (ℕ → ℝ) → DemoAct
  | setScale : ℝ → DemoAct

/-- Effect of one atomic action on the demo state. -/
noncomputable def demoStep (a : DemoAct) (s : DemoState) : DemoState :=
  match a with
  | DemoAct.writeWl => { s with spectralData := (demoWavelengths, s.spectralData.2) }
  | DemoAct.writeInts noise =>
    { s with spectralData :=
      (s.spectralData.1,
        intensitiesFrom s.sample_data_scale s.sample_data_add noise 0 s.spectralData.1) }
  | DemoAct.setScale v => { s with sample_data_scale := v }

/-- Run a sequence of atomic actions. -/
noncomputable def demoRun (zs : List DemoAct) (s : DemoState) : DemoState :=
  zs.foldl (fun st a => demoStep a st) s

/-- zs is an order-preserving interleaving of xs and ys. -/
inductive Interleave : List DemoAct → List DemoAct → List DemoAct → Prop where
  | nil : Interleave [] [] []
  | left : ∀ {x xs ys zs}, Interleave xs ys zs → Interleave (x :: xs) ys (x :: zs)
  | right : ∀ {y xs ys zs}, Interleave xs ys zs → Interleave xs (y :: ys) (y :: zs)

/-- Exactly one of two propositions holds. -/
def ExactlyOne (a b : Prop) : Prop := (a ∧ ¬ b) ∨ (¬ a ∧ b)


/-- A driver environment with no device attached: every driver call
fails. -/
def envNoDevice : PhysEnv :=
  { listDevices := none, openDevice := fun _ => none, queryModel := fun _ => none,
    queryLimit0 := fun _ => none, queryLimit1 := fun _ => none,
    readSpectrum := fun _ => none,
    setControl := fun _ _ _ => Except.error "Data transfer error" }

/-- A driver environment in which discovery and the constructor
succeed but every later driver query raises. -/
def envModelQueryFails : PhysEnv :=
  { listDevices := some [0], openDevice := fun _ => some 0, queryModel := fun _ => none,
    queryLimit0 := fun _ => none, queryLimit1 := fun _ => none,
    readSpectrum := fun _ => none,
    setControl := fun _ _ _ => Except.error "Data transfer error" }

lemma physAssignSpec_spectralData (e : PhysEnv) (s : PhysState) :
    (physAssignSpec e s).spectralData = s.spectralData := by
  rcases h1 : e.listDevices with _ | devs
  · simp [physAssignSpec, h1]
  rcases h2 : devs.head? with _ | d
  · simp [physAssignSpec, h1, h2]
  rcases h3 : e.openDevice d with _ | hdl
  · simp [physAssignSpec, h1, h2, h3]
  rcases h4 : e.queryModel hdl with _ | m
  · simp [physAssignSpec, h1, h2, h3, h4]
  rcases h5 : e.queryLimit0 hdl with _ | lo
  · simp [physAssignSpec, h1, h2, h3, h4, h5]
  rcases h6 : e.queryLimit1 hdl with _ | hi
  · simp [physAssignSpec, h1, h2, h3, h4, h5, h6]
  · simp [physAssignSpec, h1, h2, h3, h4, h5, h6]

/-- The model name assign_spec would install, when the run reaches the
model query and that query succeeds. -/
def assignedModel (e : PhysEnv) : Option String :=
  match e.listDevices with
  | none => none
  | some devs =>
    match devs.head? with
    | none => none
    | some d =>
      match e.openDevice d with
      | none => none
      | some hdl => e.queryModel hdl

lemma physAssignSpec_specmodel (e : PhysEnv) (s : PhysState) :
    (physAssignSpec e s).specmodel = (assignedModel e).getD s.specmodel := by
  rcases h1 : e.listDevices with _ | devs
  · simp [physAssignSpec, assignedModel, h1]
  rcases h2 : devs.head? with _ | d
  · simp [physAssignSpec, assignedModel, h1, h2]
  rcases h3 : e.openDevice d with _ | hdl
  · simp [physAssignSpec, assignedModel, h1, h2, h3]
  rcases h4 : e.queryModel hdl with _ | m
  · simp [physAssignSpec, assignedModel, h1, h2, h3, h4]
  rcases h5 : e.queryLimit0 hdl with _ | lo
  · simp [physAssignSpec, assignedModel, h1, h2, h3, h4, h5]
  rcases h6 : e.queryLimit1 hdl with _ | hi
  · simp [physAssignSpec, assignedModel, h1, h2, h3, h4, h5, h6]
  · simp [physAssignSpec, assignedModel, h1, h2, h3, h4, h5, h6]

/-- Claim C4: on the Physical variant, when every driver read fails
the call returns the cached spectrum unchanged; a successful read on a
bound handle returns and caches the fresh data; the initial cache is
the empty spectrum.  Together: a failing read yields the last
successfully read spectrum, or the empty one if none yet, and no error
propagates. -/
theorem physGetSpectrum_error_returns_cache (e : PhysEnv) (s : PhysState) :
    ((∀ hdl, e.readSpectrum hdl = none) →
      (physGetSpectrum e s).2 = s.spectralData ∧
      ((physGetSpectrum e s).1).spectralData = s.spectralData) ∧
    (∀ hdl d, s.spec = some hdl → e.readSpectrum hdl = some d →
      physGetSpectrum e s = ({ s with spectralData := d }, d)) ∧
    physInitState.spectralData = ([], []) := by
  refine ⟨?_, ?_, rfl⟩
  · intro hf
    rcases hsp : s.spec with _ | hdl0
    · unfold physGetSpectrum
      rcases hs : (physAssignSpec e s).spec with _ | hdl
      · simp [hsp, hs, physAssignSpec_spectralData]
      · simp [hsp, hs, hf hdl, physAssignSpec_spectralData]
    · unfold physGetSpectrum
      simp [hsp, hf hdl0]
  · intro hdl d hspec hread
    unfold physGetSpectrum
    simp [hspec, hread]

/-- Claim C4 witness: concrete instance with no device attached. -/
theorem physGetSpectrum_error_returns_cache_witness :
    (physGetSpectrum envNoDevice physInitState).2 = physInitState.spectralData ∧
    ((physGetSpectrum envNoDevice physInitState).1).spectralData = physInitState.spectralData :=
  (physGetSpectrum_error_returns_cache envNoDevice physInitState).1 (fun _ => rfl)

/-- Claim C7 (amended): assign_spec never raises; when the failure
occurs before the driver handle is constructed (no device list, empty
device list, or a failing constructor) the state is left unchanged, in
particular unbound with an empty model name; when the model query is
the first failure, the handle remains bound while everything else is
unchanged. -/
theorem physAssignSpec_prefailure_unchanged (e : PhysEnv) (s : PhysState) :
    (e.listDevices = none → physAssignSpec e s = s) ∧
    (e.listDevices = some [] → physAssignSpec e s = s) ∧
    (∀ d ds, e.listDevices = some (d :: ds) → e.openDevice d = none →
      physAssignSpec e s = s) ∧
    (∀ d ds hdl, e.listDevices = some (d :: ds) → e.openDevice d = some hdl →
      e.queryModel hdl = none → physAssignSpec e s = { s with spec := some hdl }) := by
  refine ⟨?_, ?_, ?_, ?_⟩
  · intro h; simp [physAssignSpec, h]
  · intro h; simp [physAssignSpec, h]
  · intro d ds h1 h2; simp [physAssignSpec, h1, h2]
  · intro d ds hdl h1 h2 h3; simp [physAssignSpec, h1, h2, h3]

/-- Claim C7 witness: with no device attached, assign_spec leaves the
freshly initialised state untouched. -/
theorem physAssignSpec_prefailure_unchanged_witness :
    physAssignSpec envNoDevice physInitState = physInitState :=
  (physAssignSpec_prefailure_unchanged envNoDevice physInitState).1 rfl

/-- Claim C7 counterexample: a run in which the driver handle
constructor succeeds but the model query raises leaves the handle
bound, refuting that a failing assign always leaves the driver
reference absent. -/
theorem physAssignSpec_midfailure_binds_handle :
    (physAssignSpec envModelQueryFails physInitState).spec = some 0 ∧
    (physAssignSpec envModelQueryFails physInitState).specmodel = "" :=
  ⟨rfl, rfl⟩

/-- Claim C8: calling model() twice in a fixed driver environment
returns the same string on both variants; on the Physical variant this
holds because assign_spec writes the model name as a function of the
environment alone, whether or not either embedded assign fails. -/
theorem model_idempotent (e : PhysEnv) (s : PhysState) (t : DemoState) :
    (physModel e (physModel e s).1).2 = (physModel e s).2 ∧
    (demoModel (demoModel t).1).2 = (demoModel t).2 := by
  constructor
  · show (physAssignSpec e (physAssignSpec e s)).specmodel = (physAssignSpec e s).specmodel
    rw [physAssignSpec_specmodel, physAssignSpec_specmodel]
    cases assignedModel e <;> rfl
  · rfl

/-- Claim C2 (amended): the operator-submission path performs no
bounds validation: any out-of-bound integration-time value is packaged
into the commands mapping unchanged and handed to send_control_values,
which on the simulated device even applies it and reports success. -/
theorem updateSpecParams_no_validation (v : Int) (t : DemoState)
    (h : v < t.int_time_min ∨ t.int_time_max < v) :
    updateSpecParamsDemo true v t
      = some ({ t with sample_data_scale := (v : ℝ) },
          ([], [("integration-time-input", toString v)])) := rfl

/-- Claim C2 witness: the out-of-bound value -7 is forwarded and applied. -/
theorem updateSpecParams_no_validation_witness :
    updateSpecParamsDemo true (-7) demoInit
      = some ({ demoInit with sample_data_scale := ((-7 : Int) : ℝ) },
          ([], [("integration-time-input", toString (-7 : Int))])) :=
  updateSpecParams_no_validation (-7) demoInit (Or.inl (by decide))

/-- Claim C2 counterexample: -5 lies below the reported minimum 0, yet
the submission path delivers it to send_control_values, which accepts
it: the Device Abstraction does receive out-of-bound values. -/
theorem updateSpecParams_forwards_out_of_bound :
    (-5 : Int) < demoInit.int_time_min ∧
    updateSpecParamsDemo true (-5) demoInit
      = some ({ demoInit with sample_data_scale := ((-5 : Int) : ℝ) },
          ([], [("integration-time-input", "-5")])) :=
  ⟨by decide, rfl⟩

/-- Claim C6: for any in-bound integration-time value v, submitting
the single-command batch yields succeeded holding v rendered as a
string and an empty failed mapping; in particular submitting 1000 on
the simulated device yields succeeded holding the string 1000 only. -/
theorem demoSend_inbound_succeeds (v : Int) (s : DemoState)
    (h1 : s.int_time_min ≤ v) (h2 : v ≤ s.int_time_max) :
    demoSend [("integration-time-input", v)] s
      = ({ s with sample_data_scale := (v : ℝ) },
          ([], [("integration-time-input", toString v)])) ∧
    demoSend [("integration-time-input", 1000)] demoInit
      = ({ demoInit with sample_data_scale := ((1000 : Int) : ℝ) },
          ([], [("integration-time-input", "1000")])) :=
  ⟨rfl, rfl⟩

/-- Claim C6 witness: the value 1 lies within the demo bounds 0 and 1. -/
theorem demoSend_inbound_succeeds_witness :
    demoSend [("integration-time-input", 1)] demoInit
      = ({ demoInit with sample_data_scale := ((1 : Int) : ℝ) },
          ([], [("integration-time-input", toString (1 : Int))])) ∧
    demoSend [("integration-time-input", 1000)] demoInit
      = ({ demoInit with sample_data_scale := ((1000 : Int) : ℝ) },
          ([], [("integration-time-input", "1000")])) :=
  demoSend_inbound_succeeds 1 demoInit (by decide) (by decide)


lemma intensitiesFrom_length (scale add : ℝ) (noise : ℕ → ℝ) :
    ∀ (k : ℕ) (l : List ℝ), (intensitiesFrom scale add noise k l).length = l.length := by
  intro k l
  induction l generalizing k with
  | nil => rfl
  | cons x xs ih => simp [intensitiesFrom, ih]

lemma demoWavelengths_length : demoWavelengths.length = 5000 := by
  simp [demoWavelengths]

/-- Claim C3 (amended): read_spectrum always returns two sequences of
equal length; on the Simulated variant the common length is 5000; on
the Physical variant equality of lengths holds for any driver whose
successful reads are equal-length pairs and any state whose cache is
an equal-length pair, but the common length can be 0 before the first
successful read. -/
theorem read_spectrum_equal_lengths (noise : ℕ → ℝ) (t : DemoState)
    (e : PhysEnv) (s : PhysState)
    (hdrv : ∀ hdl d, e.readSpectrum hdl = some d → d.1.length = d.2.length)
    (hcache : s.spectralData.1.length = s.spectralData.2.length) :
    ((demoGetSpectrum noise t).2.1.length = 5000 ∧
      (demoGetSpectrum noise t).2.2.length = 5000) ∧
    (physGetSpectrum e s).2.1.length = (physGetSpectrum e s).2.2.length := by
  constructor
  · have hsnd : (demoGetSpectrum noise t).2
        = (demoWavelengths,
            intensitiesFrom t.sample_data_scale t.sample_data_add noise 0 demoWavelengths) := by
      unfold demoGetSpectrum
      dsimp only
    rw [hsnd]
    dsimp only
    exact ⟨demoWavelengths_length, by rw [intensitiesFrom_length, demoWavelengths_length]⟩
  · rcases hsp : s.spec with _ | hdl0
    · unfold physGetSpectrum
      rcases hs : (physAssignSpec e s).spec with _ | hdl
      · simpa [hsp, hs, physAssignSpec_spectralData] using hcache
      · rcases hr : e.readSpectrum hdl with _ | d
        · simpa [hsp, hs, hr, physAssignSpec_spectralData] using hcache
        · simpa [hsp, hs, hr] using hdrv hdl d hr
    · unfold physGetSpectrum
      rcases hr : e.readSpectrum hdl0 with _ | d
      · simpa [hsp, hr] using hcache
      · simpa [hsp, hr] using hdrv hdl0 d hr

/-- Claim C3 witness: concrete equal-length results on both variants. -/
theorem read_spectrum_equal_lengths_witness :
    ((demoGetSpectrum (fun _ => 0) demoInit).2.1.length = 5000 ∧
      (demoGetSpectrum (fun _ => 0) demoInit).2.2.length = 5000) ∧
    (physGetSpectrum envNoDevice physInitState).2.1.length
      = (physGetSpectrum envNoDevice physInitState).2.2.length :=
  read_spectrum_equal_lengths (fun _ => 0) demoInit envNoDevice physInitState
    (fun _ _ hd => Option.noConfusion hd) rfl

/-- Claim C3 counterexample: with no device ever bound and the driver
read failing, get_spectrum returns the empty pair, whose common length
is 0, not at least 1. -/
theorem read_spectrum_empty_before_first_success :
    (physGetSpectrum envNoDevice physInitState).2 = ([], []) ∧
    ¬ (1 ≤ (physGetSpectrum envNoDevice physInitState).2.1.length) :=
  ⟨rfl, by decide⟩


lemma physSend_keys_perm (e : PhysEnv) (s : PhysState) :
    ∀ cmds : List (String × Int),
      List.Perm ((physSend e s cmds).1.map Prod.fst ++ (physSend e s cmds).2.map Prod.fst)
        (cmds.map Prod.fst) := by
  intro cmds
  induction cmds with
  | nil => simp [physSend]
  | cons c rest ih =>
    obtain ⟨cid, v⟩ := c
    rcases hl : List.lookup cid physControlFunctions with _ | expr
    · simp only [physSend, hl, List.map_cons, List.cons_append]
      exact ih.cons cid
    · rcases hsp : s.spec with _ | hdl
      · simp only [physSend, hl, hsp, List.map_cons, List.cons_append]
        exact ih.cons cid
      · rcases hc : e.setControl hdl cid v with msg | u
        · simp only [physSend, hl, hsp, hc, List.map_cons, List.cons_append]
          exact ih.cons cid
        · simp only [physSend, hl, hsp, hc, List.map_cons]
          exact List.Perm.trans List.perm_middle (ih.cons cid)

lemma demoSend_keys_perm :
    ∀ (cmds : List (String × Int)) (t : DemoState),
      List.Perm ((demoSend cmds t).2.1.map Prod.fst ++ (demoSend cmds t).2.2.map Prod.fst)
        (cmds.map Prod.fst) := by
  intro cmds
  induction cmds with
  | nil => intro t; simp [demoSend]
  | cons c rest ih =>
    intro t
    obtain ⟨cid, v⟩ := c
    rcases hl : List.lookup cid demoControlFunctions with _ | expr
    · simp only [demoSend, hl, List.map_cons, List.cons_append]
      exact (ih t).cons cid
    · simp only [demoSend, hl, List.map_cons]
      exact List.Perm.trans List.perm_middle ((ih (demoEvalCtrl expr v t)).cons cid)

lemma perm_nodup_exactlyOne {fk sk K : List String}
    (p : List.Perm (fk ++ sk) K) (hnd : K.Nodup) {cid : String} (hm : cid ∈ K) :
    ExactlyOne (cid ∈ fk) (cid ∈ sk) := by
  have hnd2 : (fk ++ sk).Nodup := p.nodup_iff.mpr hnd
  have hdisj : fk.Disjoint sk := List.disjoint_of_nodup_append hnd2
  rcases List.mem_append.mp (p.mem_iff.mpr hm) with h | h
  · exact Or.inl ⟨h, fun h2 => hdisj h h2⟩
  · exact Or.inr ⟨fun h1 => hdisj h1 h, h⟩

/-- Claim C1: on both variants, the control ids of failed and
succeeded together are a permutation of the submitted control ids
(so no failure stops the processing of later entries), and when the
submitted ids are distinct, each submitted id lands in exactly one of
the two mappings. -/
theorem send_control_values_partition (e : PhysEnv) (s : PhysState) (t : DemoState)
    (cmds : List (String × Int)) (hnd : (cmds.map Prod.fst).Nodup) :
    List.Perm ((physSend e s cmds).1.map Prod.fst ++ (physSend e s cmds).2.map Prod.fst)
      (cmds.map Prod.fst) ∧
    List.Perm ((demoSend cmds t).2.1.map Prod.fst ++ (demoSend cmds t).2.2.map Prod.fst)
      (cmds.map Prod.fst) ∧
    (∀ cid ∈ cmds.map Prod.fst,
      ExactlyOne (cid ∈ (physSend e s cmds).1.map Prod.fst)
        (cid ∈ (physSend e s cmds).2.map Prod.fst)) ∧
    (∀ cid ∈ cmds.map Prod.fst,
      ExactlyOne (cid ∈ (demoSend cmds t).2.1.map Prod.fst)
        (cid ∈ (demoSend cmds t).2.2.map Prod.fst)) := by
  refine ⟨physSend_keys_perm e s cmds, demoSend_keys_perm cmds t, ?_, ?_⟩
  · intro cid hm
    exact perm_nodup_exactlyOne (physSend_keys_perm e s cmds) hnd hm
  · intro cid hm
    exact perm_nodup_exactlyOne (demoSend_keys_perm cmds t) hnd hm

/-- A two-command batch: one registered control, one unknown id. -/
def cmdsEx : List (String × Int) := [("integration-time-input", 1000), ("unknown-ctrl", 3)]

/-- Claim C1 witness: the partition holds on a concrete batch holding
a registered and an unknown control id. -/
theorem send_control_values_partition_witness :
    List.Perm ((physSend envNoDevice physInitState cmdsEx).1.map Prod.fst
        ++ (physSend envNoDevice physInitState cmdsEx).2.map Prod.fst)
      (cmdsEx.map Prod.fst) ∧
    List.Perm ((demoSend cmdsEx demoInit).2.1.map Prod.fst
        ++ (demoSend cmdsEx demoInit).2.2.map Prod.fst)
      (cmdsEx.map Prod.fst) ∧
    (∀ cid ∈ cmdsEx.map Prod.fst,
      ExactlyOne (cid ∈ (physSend envNoDevice physInitState cmdsEx).1.map Prod.fst)
        (cid ∈ (physSend envNoDevice physInitState cmdsEx).2.map Prod.fst)) ∧
    (∀ cid ∈ cmdsEx.map Prod.fst,
      ExactlyOne (cid ∈ (demoSend cmdsEx demoInit).2.1.map Prod.fst)
        (cid ∈ (demoSend cmdsEx demoInit).2.2.map Prod.fst)) :=
  send_control_values_partition envNoDevice physInitState demoInit cmdsEx (by decide)

/-- Claim C9: a batch containing an unknown control id never raises:
the unknown id is recorded under failed with the KeyError text, and
the entries before and after it are processed exactly as they would be
without it, on both variants. -/
theorem unknown_control_isolated (e : PhysEnv) (s : PhysState) (t : DemoState)
    (pre post : List (String × Int)) (cid : String) (v : Int)
    (h1 : List.lookup cid physControlFunctions = none)
    (h2 : List.lookup cid demoControlFunctions = none) :
    physSend e s (pre ++ (cid, v) :: post)
      = ((physSend e s pre).1 ++ (cid, stripChar 'b' (keyErrorMsg cid)) :: (physSend e s post).1,
         (physSend e s pre).2 ++ (physSend e s post).2) ∧
    demoSend (pre ++ (cid, v) :: post) t
      = ((demoSend post (demoSend pre t).1).1,
         ((demoSend pre t).2.1 ++ (cid, keyErrorMsg cid) :: (demoSend post (demoSend pre t).1).2.1,
          (demoSend pre t).2.2 ++ (demoSend post (demoSend pre t).1).2.2)) := by
  constructor
  · induction pre with
    | nil => simp [physSend, h1]
    | cons c pre ih =>
      obtain ⟨cid0, v0⟩ := c
      rcases hl : List.lookup cid0 physControlFunctions with _ | expr
      · simp [physSend, hl, ih]
      · rcases hsp : s.spec with _ | hdl
        · simp [physSend, hl, hsp, ih]
        · rcases hc : e.setControl hdl cid0 v0 with msg | u
          · simp [physSend, hl, hsp, hc, ih]
          · simp [physSend, hl, hsp, hc, ih]
  · induction pre generalizing t with
    | nil => simp [demoSend, h2]
    | cons c pre ih =>
      obtain ⟨cid0, v0⟩ := c
      rcases hl : List.lookup cid0 demoControlFunctions with _ | expr
      · simp [demoSend, hl, ih]
      · simp [demoSend, hl, ih]

/-- Claim C9 witness: a concrete batch holding the registered
integration-time control followed by an unregistered id. -/
theorem unknown_control_isolated_witness :
    physSend envNoDevice physInitState ([("integration-time-input", 3)] ++ ("mystery", 7) :: [])
      = ((physSend envNoDevice physInitState [("integration-time-input", 3)]).1
            ++ (("mystery", stripChar 'b' (keyErrorMsg "mystery"))
              :: (physSend envNoDevice physInitState []).1),
         (physSend envNoDevice physInitState [("integration-time-input", 3)]).2
            ++ (physSend envNoDevice physInitState []).2) ∧
    demoSend ([("integration-time-input", 3)] ++ ("mystery", 7) :: []) demoInit
      = ((demoSend [] (demoSend [("integration-time-input", 3)] demoInit).1).1,
         ((demoSend [("integration-time-input", 3)] demoInit).2.1
            ++ ("mystery", keyErrorMsg "mystery")
              :: (demoSend [] (demoSend [("integration-time-input", 3)] demoInit).1).2.1,
          (demoSend [("integration-time-input", 3)] demoInit).2.2
            ++ (demoSend [] (demoSend [("integration-time-input", 3)] demoInit).1).2.2)) :=
  unknown_control_isolated envNoDevice physInitState demoInit
    [("integration-time-input", 3)] [] "mystery" 7 rfl rfl


/-- Claim C10: for every interleaving of the two attribute writes of a
simulated-variant poll (get_spectrum) with the scale write of a
concurrent operator submission, the spectrum held (and returned) after
the poll consists of two sequences of equal length 5000; the
submission only touches _sample_data_scale, never the spectral data,
so the pair the poll returns is never corrupted. -/
theorem concurrent_poll_submit_keeps_lengths (noise : ℕ → ℝ) (v : ℝ) (s : DemoState)
    (zs : List DemoAct)
    (h : Interleave [DemoAct.writeWl, DemoAct.writeInts noise] [DemoAct.setScale v] zs) :
    (demoRun zs s).spectralData.1.length = (demoRun zs s).spectralData.2.length ∧
    1 ≤ (demoRun zs s).spectralData.1.length := by
  cases h with
  | left h1 =>
    cases h1 with
    | left h2 =>
      cases h2 with
      | right h3 =>
        cases h3
        simp only [demoRun, List.foldl, demoStep]
        exact ⟨by rw [intensitiesFrom_length], by rw [demoWavelengths_length]; norm_num⟩
    | right h2 =>
      cases h2 with
      | left h3 =>
        cases h3
        simp only [demoRun, List.foldl, demoStep]
        exact ⟨by rw [intensitiesFrom_length], by rw [demoWavelengths_length]; norm_num⟩
  | right h1 =>
    cases h1 with
    | left h2 =>
      cases h2 with
      | left h3 =>
        cases h3
        simp only [demoRun, List.foldl, demoStep]
        exact ⟨by rw [intensitiesFrom_length], by rw [demoWavelengths_length]; norm_num⟩

/-- Claim C10 witness: a concrete interleaving in which the submission
lands between the two writes of the poll. -/
theorem concurrent_poll_submit_keeps_lengths_witness :
    (demoRun [DemoAct.writeWl, DemoAct.setScale 2, DemoAct.writeInts (fun _ => 0)]
        demoInit).spectralData.1.length
      = (demoRun [DemoAct.writeWl, DemoAct.setScale 2, DemoAct.writeInts (fun _ => 0)]
        demoInit).spectralData.2.length ∧
    1 ≤ (demoRun [DemoAct.writeWl, DemoAct.setScale 2, DemoAct.writeInts (fun _ => 0)]
        demoInit).spectralData.1.length :=
  concurrent_poll_submit_keeps_lengths (fun _ => 0) 2 demoInit _
    (Interleave.left (Interleave.right (Interleave.left Interleave.nil)))


lemma intensitiesFrom_getD (scale add : ℝ) (noise : ℕ → ℝ) :
    ∀ (l : List ℝ) (k j : ℕ), j < l.length →
      (intensitiesFrom scale add noise k l).getD j 0
        = sampleSpectrum scale add (noise (k + j)) (l.getD j 0) := by
  intro l
  induction l with
  | nil => intro k j h; simp at h
  | cons x xs ih =>
    intro k j h
    cases j with
    | zero => rfl
    | succ j =>
      have h2 : j < xs.length := by simpa using h
      calc (intensitiesFrom scale add noise k (x :: xs)).getD (j + 1) 0
          = (intensitiesFrom scale add noise (k + 1) xs).getD j 0 := rfl
        _ = sampleSpectrum scale add (noise ((k + 1) + j)) (xs.getD j 0) := ih (k + 1) j h2
        _ = sampleSpectrum scale add (noise (k + (j + 1))) ((x :: xs).getD (j + 1) 0) := by
            rw [show (k + 1) + j = k + (j + 1) from by omega, List.getD_cons_succ]

lemma intensitiesFrom_mem (scale add : ℝ) (noise : ℕ → ℝ) :
    ∀ (l : List ℝ) (k : ℕ) (x : ℝ), x ∈ intensitiesFrom scale add noise k l →
      ∃ i y, x = sampleSpectrum scale add (noise i) y := by
  intro l
  induction l with
  | nil => intro k x hx; simp [intensitiesFrom] at hx
  | cons z zs ih =>
    intro k x hx
    rcases List.mem_cons.mp hx with h | h
    · exact ⟨k, z, h⟩
    · exact ih (k + 1) x h

lemma demoWavelengths_getD (j : ℕ) (h : j < 5000) :
    demoWavelengths.getD j 0 = demoWl j := by
  rw [demoWavelengths, List.getD_eq_getElem?_getD, List.getElem?_map, List.getElem?_range h]
  rfl


lemma exp_peak_gap :
    Real.exp (-(1/25 : ℝ)) + 0.01 < Real.exp (-(400/24990001 : ℝ)) := by
  have h1 : (26/25 : ℝ) ≤ Real.exp (1/25) := by
    have := Real.add_one_le_exp (1/25 : ℝ)
    linarith
  have h2 : Real.exp (-(1/25 : ℝ)) ≤ 25/26 := by
    rw [Real.exp_neg, show (25/26 : ℝ) = (26/25 : ℝ)⁻¹ by norm_num]
    exact inv_anti₀ (by norm_num) h1
  have h3 : (1 : ℝ) - 400/24990001 ≤ Real.exp (-(400/24990001 : ℝ)) := by
    have := Real.add_one_le_exp (-(400/24990001 : ℝ))
    linarith
  have h4 : (25/26 : ℝ) + 0.01 < 1 - 400/24990001 := by norm_num
  linarith

lemma demoWl_1000_sq : ((demoWl 1000 - 500) / 5) ^ 2 = (400/24990001 : ℝ) := by
  norm_num [demoWl]

lemma sample_nonneg (scale n y : ℝ) (hsc : 0 ≤ scale) (hn : 0 ≤ n) :
    0 ≤ sampleSpectrum scale 0 n y := by
  unfold sampleSpectrum
  have := Real.exp_pos (-(((y - 500) / 5) ^ 2))
  nlinarith

lemma sample_peak (scale nj n0 x : ℝ) (hsc : 0 < scale) (hnj0 : 0 ≤ nj) (hnj1 : nj < 1)
    (hn00 : 0 ≤ n0) (hfar : 1 < |x - 500|) :
    sampleSpectrum scale 0 nj x < sampleSpectrum scale 0 n0 (demoWl 1000) := by
  unfold sampleSpectrum
  have hsq : (1/25 : ℝ) < ((x - 500) / 5) ^ 2 := by
    nlinarith [sq_abs (x - 500), hfar, abs_nonneg (x - 500)]
  have hA : Real.exp (-(((x - 500) / 5) ^ 2)) < Real.exp (-(1/25 : ℝ)) :=
    Real.exp_lt_exp.mpr (by linarith)
  have hB : Real.exp (-(400/24990001 : ℝ)) ≤ Real.exp (-(((demoWl 1000 - 500) / 5) ^ 2)) := by
    rw [demoWl_1000_sq]
  have hgap := exp_peak_gap
  have hlt : Real.exp (-(((x - 500) / 5) ^ 2)) + 0.01 * nj
      < Real.exp (-(((demoWl 1000 - 500) / 5) ^ 2)) + 0.01 * n0 := by linarith
  have := mul_lt_mul_of_pos_left hlt hsc
  linarith


/-- Claim C5 (amended): every simulated read returns as wavelengths
the fixed 5000-sample sequence, ascending from 400 to 900; whenever
the current scale (the last applied integration-time value, initially
0) is non-negative, all intensities are non-negative; and whenever the
scale is strictly positive, every sample more than 1 nm away from
500 nm is strictly below the sample at index 1000 (wavelength about
500.02 nm), so the maximum is attained only within 1 nm of 500 nm. -/
theorem demo_spectrum_fixed_wavelengths_peak (noise : ℕ → ℝ) (s : DemoState)
    (hnoise : ∀ i, 0 ≤ noise i ∧ noise i < 1)
    (hadd : s.sample_data_add = 0) :
    (demoGetSpectrum noise s).2.1 = demoWavelengths ∧
    demoWavelengths.length = 5000 ∧
    demoWavelengths.getD 0 0 = 400 ∧
    demoWavelengths.getD 4999 0 = 900 ∧
    (∀ i j, i < j → j < 5000 → demoWavelengths.getD i 0 < demoWavelengths.getD j 0) ∧
    (0 ≤ s.sample_data_scale → ∀ x ∈ (demoGetSpectrum noise s).2.2, 0 ≤ x) ∧
    (0 < s.sample_data_scale → ∀ j, j < 5000 → 1 < |demoWl j - 500| →
      (demoGetSpectrum noise s).2.2.getD j 0 < (demoGetSpectrum noise s).2.2.getD 1000 0) := by
  have hsnd : (demoGetSpectrum noise s).2
      = (demoWavelengths,
          intensitiesFrom s.sample_data_scale s.sample_data_add noise 0 demoWavelengths) := by
    unfold demoGetSpectrum
    dsimp only
  refine ⟨?_, demoWavelengths_length, ?_, ?_, ?_, ?_, ?_⟩
  · rw [hsnd]
  · rw [demoWavelengths_getD 0 (by norm_num)]
    norm_num [demoWl]
  · rw [demoWavelengths_getD 4999 (by norm_num)]
    norm_num [demoWl]
  · intro i j hij hj
    rw [demoWavelengths_getD i (lt_trans hij hj), demoWavelengths_getD j hj]
    unfold demoWl
    have hc : (i : ℝ) < (j : ℝ) := by exact_mod_cast hij
    linarith
  · intro hsc x hx
    rw [hsnd] at hx
    dsimp only at hx
    obtain ⟨i, y, hxy⟩ := intensitiesFrom_mem _ _ _ _ _ _ hx
    rw [hxy, hadd]
    exact sample_nonneg s.sample_data_scale (noise i) y hsc (hnoise i).1
  · intro hsc j hj hfar
    rw [hsnd]
    dsimp only
    rw [intensitiesFrom_getD _ _ _ demoWavelengths 0 j (by rw [demoWavelengths_length]; exact hj),
      intensitiesFrom_getD _ _ _ demoWavelengths 0 1000 (by rw [demoWavelengths_length]; norm_num),
      demoWavelengths_getD j hj, demoWavelengths_getD 1000 (by norm_num), hadd]
    simp only [Nat.zero_add]
    exact sample_peak s.sample_data_scale (noise j) (noise 1000) (demoWl j) hsc
      (hnoise j).1 (hnoise j).2 (hnoise 1000).1 hfar

/-- Claim C5 witness: the freshly initialised demo device (scale 0,
offset 0) with an all-zero noise stream. -/
theorem demo_spectrum_fixed_wavelengths_peak_witness :
    (demoGetSpectrum (fun _ => 0) demoInit).2.1 = demoWavelengths ∧
    demoWavelengths.length = 5000 ∧
    demoWavelengths.getD 0 0 = 400 ∧
    demoWavelengths.getD 4999 0 = 900 ∧
    (∀ i j, i < j → j < 5000 → demoWavelengths.getD i 0 < demoWavelengths.getD j 0) ∧
    (0 ≤ demoInit.sample_data_scale →
      ∀ x ∈ (demoGetSpectrum (fun _ => 0) demoInit).2.2, 0 ≤ x) ∧
    (0 < demoInit.sample_data_scale → ∀ j, j < 5000 → 1 < |demoWl j - 500| →
      (demoGetSpectrum (fun _ => 0) demoInit).2.2.getD j 0
        < (demoGetSpectrum (fun _ => 0) demoInit).2.2.getD 1000 0) :=
  demo_spectrum_fixed_wavelengths_peak (fun _ => 0) demoInit
    (fun _ => ⟨le_refl 0, by norm_num⟩) rfl

/-- Claim C5 counterexample: the operator can drive the scale negative
(no validation rejects -1), after which the next read returns a
negative intensity at index 1000, refuting that intensities are always
non-negative. -/
theorem demo_negative_scale_negative_intensity :
    ((demoGetSpectrum (fun _ => 0)
        ((demoSend [("integration-time-input", -1)] demoInit).1)).2.2).length = 5000 ∧
    ((demoGetSpectrum (fun _ => 0)
        ((demoSend [("integration-time-input", -1)] demoInit).1)).2.2).getD 1000 0 < 0 := by
  have hst : (demoSend [("integration-time-input", -1)] demoInit).1
      = { demoInit with sample_data_scale := ((-1 : Int) : ℝ) } := rfl
  rw [hst]
  have hsnd : (demoGetSpectrum (fun _ => 0)
        { demoInit with sample_data_scale := ((-1 : Int) : ℝ) }).2
      = (demoWavelengths,
          intensitiesFrom ((-1 : Int) : ℝ) demoInit.sample_data_add (fun _ => 0) 0
            demoWavelengths) := by
    unfold demoGetSpectrum
    dsimp only
  rw [hsnd]
  dsimp only
  constructor
  · rw [intensitiesFrom_length, demoWavelengths_length]
  · rw [intensitiesFrom_getD _ _ _ demoWavelengths 0 1000 (by rw [demoWavelengths_length]; norm_num),
      demoWavelengths_getD 1000 (by norm_num)]
    show sampleSpectrum ((-1 : Int) : ℝ) demoInit.sample_data_add 0 (demoWl 1000) < 0
    rw [show demoInit.sample_data_add = 0 from rfl]
    unfold sampleSpectrum
    have := Real.exp_pos (-(((demoWl 1000 - 500) / 5) ^ 2))
    push_cast
    nlinarith

end SpectroApp
